import Mathlib

/-!
Verification of the DNI-lookup gateway (`src/main.py`) against its
specification.

The embedding models the two route handlers `consultar_dni` (single
lookup) and `consultar_lote` (batch lookup, with its inner per-item
worker `consultar_uno`), together with a small transition system for
the semaphore-gated fan-out that `consultar_lote` performs with
`asyncio.Semaphore(5)` and `asyncio.gather`.

Conventions of the embedding:
* The network is an oracle `Upstream : UpstreamRequest → UpstreamResp`;
  one oracle application corresponds to one `client.post(...)` call
  followed by `response.raise_for_status()` and `response.json()`.
* Each handler returns a `Traced` value: the HTTP-level result paired
  with the list of upstream requests actually issued, so that
  "no network activity" is the statement `calls = []`.
* The Unicode-dependent Python builtins are modelled by exhaustive
  code-point tables generated from CPython 3.11.6 / Unicode 14.0.0:
  `str.isdigit()` via `pyDigitRanges` and `str.isprintable()` (consulted
  by `repr`, hence by the f-string rendering of the offending-keys
  list) via `pyNonprintableRanges`.
* Exceptions are explicit: `PyExc` covers the exceptions that can arise
  inside the `try` blocks (`httpx.HTTPStatusError` from
  `raise_for_status`, `httpx.RequestError` from the transport, and a
  JSON decode error from `response.json()`).
-/

/-- Process configuration read from the environment in `main.py`
(`SEEKER_TOKEN`, `API_KEY`); both default to the empty string. -/
structure Config where
  SEEKER_TOKEN : String
  API_KEY : String
deriving Repr, DecidableEq

/-- `API_URL` constant of `main.py`. -/
def API_URL : String := "https://seeker.red/personas/apiBasico/dni"

/-- `TIMEOUT` constant of `main.py` (seconds). -/
def TIMEOUT : Nat := 15

/-- One outbound request as built by `client.post` in `main.py`:
the endpoint, the `Authorization` header, the form field `dni`,
and the timeout. -/
structure UpstreamRequest where
  url : String
  authorization : String
  dni : String
  timeout : Nat
deriving Repr, DecidableEq

/-- Possible behaviours of one upstream call, as observed through
`client.post` + `raise_for_status()` + `.json()`:
a 2xx response with a JSON body, a 2xx response whose body fails JSON
decoding, a non-2xx response (makes `raise_for_status` raise
`httpx.HTTPStatusError`), or a transport failure (`httpx.RequestError`:
DNS, refused connection, timeout, TLS). -/
inductive UpstreamResp where
  | ok (payload : String)
  | okBadJson (detail : String)
  | httpError (status : Nat) (text : String)
  | transportError (detail : String)
deriving Repr, DecidableEq

/-- The network oracle: what the upstream service does with a request. -/
def Upstream : Type := UpstreamRequest → UpstreamResp

/-- The exceptions that can be raised inside the `try` blocks of
`main.py`. -/
inductive PyExc where
  | httpStatusError (status : Nat) (text : String)
  | requestError (detail : String)
  | jsonDecodeError (detail : String)
deriving Repr, DecidableEq

/-- Rendering of an exception by Python `str(e)`, used in the error
strings of `main.py`. The payload is opaque; only its tagging matters
to the claims. -/
def pyExcStr : PyExc → String
  | .httpStatusError st text => "HTTPStatusError " ++ toString st ++ ": " ++ text
  | .requestError detail => "RequestError: " ++ detail
  | .jsonDecodeError detail => "JSONDecodeError: " ++ detail

/-- The request built by both handlers:
`client.post(API_URL, headers={Authorization: Bearer <token>}, data={dni: <dni>}, timeout=TIMEOUT)`. -/
def mkRequest (token dni : String) : UpstreamRequest :=
  ⟨API_URL, "Bearer " ++ token, dni, TIMEOUT⟩

/-- One upstream fetch: `client.post` + `raise_for_status()` +
`.json()`, returning the decoded payload or the raised exception. -/
def attemptFetch (up : Upstream) (token dni : String) : Except PyExc String :=
  match up (mkRequest token dni) with
  | .ok payload => .ok payload
  | .okBadJson detail => .error (.jsonDecodeError detail)
  | .httpError st text => .error (.httpStatusError st text)
  | .transportError detail => .error (.requestError detail)

/-- Inclusive code-point ranges of the characters for which Python
`str.isdigit()` is true (Unicode `Numeric_Type` of Digit or Decimal),
generated exhaustively from CPython 3.11.6 / Unicode 14.0.0. -/
def pyDigitRanges : List (Nat × Nat) := [
  (0x30, 0x39), (0xb2, 0xb3), (0xb9, 0xb9), (0x660, 0x669),
  (0x6f0, 0x6f9), (0x7c0, 0x7c9), (0x966, 0x96f), (0x9e6, 0x9ef),
  (0xa66, 0xa6f), (0xae6, 0xaef), (0xb66, 0xb6f), (0xbe6, 0xbef),
  (0xc66, 0xc6f), (0xce6, 0xcef), (0xd66, 0xd6f), (0xde6, 0xdef),
  (0xe50, 0xe59), (0xed0, 0xed9), (0xf20, 0xf29), (0x1040, 0x1049),
  (0x1090, 0x1099), (0x1369, 0x1371), (0x17e0, 0x17e9), (0x1810, 0x1819),
  (0x1946, 0x194f), (0x19d0, 0x19da), (0x1a80, 0x1a89), (0x1a90, 0x1a99),
  (0x1b50, 0x1b59), (0x1bb0, 0x1bb9), (0x1c40, 0x1c49), (0x1c50, 0x1c59),
  (0x2070, 0x2070), (0x2074, 0x2079), (0x2080, 0x2089), (0x2460, 0x2468),
  (0x2474, 0x247c), (0x2488, 0x2490), (0x24ea, 0x24ea), (0x24f5, 0x24fd),
  (0x24ff, 0x24ff), (0x2776, 0x277e), (0x2780, 0x2788), (0x278a, 0x2792),
  (0xa620, 0xa629), (0xa8d0, 0xa8d9), (0xa900, 0xa909), (0xa9d0, 0xa9d9),
  (0xa9f0, 0xa9f9), (0xaa50, 0xaa59), (0xabf0, 0xabf9), (0xff10, 0xff19),
  (0x104a0, 0x104a9), (0x10a40, 0x10a43), (0x10d30, 0x10d39), (0x10e60, 0x10e68),
  (0x11052, 0x1105a), (0x11066, 0x1106f), (0x110f0, 0x110f9), (0x11136, 0x1113f),
  (0x111d0, 0x111d9), (0x112f0, 0x112f9), (0x11450, 0x11459), (0x114d0, 0x114d9),
  (0x11650, 0x11659), (0x116c0, 0x116c9), (0x11730, 0x11739), (0x118e0, 0x118e9),
  (0x11950, 0x11959), (0x11c50, 0x11c59), (0x11d50, 0x11d59), (0x11da0, 0x11da9),
  (0x16a60, 0x16a69), (0x16ac0, 0x16ac9), (0x16b50, 0x16b59), (0x1d7ce, 0x1d7ff),
  (0x1e140, 0x1e149), (0x1e2f0, 0x1e2f9), (0x1e950, 0x1e959), (0x1f100, 0x1f10a),
  (0x1fbf0, 0x1fbf9)
]

/-- Membership of a code point in a list of inclusive ranges. -/
def inRanges (rs : List (Nat × Nat)) (n : Nat) : Bool :=
  rs.any (fun r => r.1 ≤ n && n ≤ r.2)

/-- Python `str.isdigit()` on one character. -/
def pyIsdigitChar (c : Char) : Bool :=
  inRanges pyDigitRanges c.toNat

/-- Python `str.isdigit()`: the string is nonempty and every character
is a Unicode digit — a strict superset of the ASCII digits `0`..`9`
that also contains, e.g., the Arabic-Indic and fullwidth digits. -/
def pyIsdigit (s : String) : Bool :=
  !s.data.isEmpty && s.data.all pyIsdigitChar

/-- Validation used by both endpoints: `d.isdigit() and len(d) == 8`. -/
def validDni (d : String) : Bool :=
  pyIsdigit d && d.length == 8

/-- A result paired with the trace of upstream requests issued while
computing it. -/
structure Traced (α : Type) where
  result : α
  calls : List UpstreamRequest
deriving Repr, DecidableEq

/-- HTTP-level outcome of the single-lookup handler: the raw upstream
JSON document on success, a raised `HTTPException(status, detail)`, or
an exception escaping the handler (FastAPI then answers 500). -/
inductive SingleResult where
  | ok (payload : String)
  | httpError (status : Nat) (detail : String)
  | uncaught (detail : String)
deriving Repr, DecidableEq

/-- Inclusive code-point ranges of the characters for which Python
`str.isprintable()` is false (categories Cc, Cf, Cs, Co, Cn, Zl, Zp and
Zs except the ASCII space), generated exhaustively from CPython 3.11.6
/ Unicode 14.0.0. Lean `Char` excludes the surrogate range, which these
ranges cover but which is never reached. -/
def pyNonprintableRanges : List (Nat × Nat) := [
  (0x0, 0x1f), (0x7f, 0xa0), (0xad, 0xad), (0x378, 0x379),
  (0x380, 0x383), (0x38b, 0x38b), (0x38d, 0x38d), (0x3a2, 0x3a2),
  (0x530, 0x530), (0x557, 0x558), (0x58b, 0x58c), (0x590, 0x590),
  (0x5c8, 0x5cf), (0x5eb, 0x5ee), (0x5f5, 0x605), (0x61c, 0x61c),
  (0x6dd, 0x6dd), (0x70e, 0x70f), (0x74b, 0x74c), (0x7b2, 0x7bf),
  (0x7fb, 0x7fc), (0x82e, 0x82f), (0x83f, 0x83f), (0x85c, 0x85d),
  (0x85f, 0x85f), (0x86b, 0x86f), (0x88f, 0x897), (0x8e2, 0x8e2),
  (0x984, 0x984), (0x98d, 0x98e), (0x991, 0x992), (0x9a9, 0x9a9),
  (0x9b1, 0x9b1), (0x9b3, 0x9b5), (0x9ba, 0x9bb), (0x9c5, 0x9c6),
  (0x9c9, 0x9ca), (0x9cf, 0x9d6), (0x9d8, 0x9db), (0x9de, 0x9de),
  (0x9e4, 0x9e5), (0x9ff, 0xa00), (0xa04, 0xa04), (0xa0b, 0xa0e),
  (0xa11, 0xa12), (0xa29, 0xa29), (0xa31, 0xa31), (0xa34, 0xa34),
  (0xa37, 0xa37), (0xa3a, 0xa3b), (0xa3d, 0xa3d), (0xa43, 0xa46),
  (0xa49, 0xa4a), (0xa4e, 0xa50), (0xa52, 0xa58), (0xa5d, 0xa5d),
  (0xa5f, 0xa65), (0xa77, 0xa80), (0xa84, 0xa84), (0xa8e, 0xa8e),
  (0xa92, 0xa92), (0xaa9, 0xaa9), (0xab1, 0xab1), (0xab4, 0xab4),
  (0xaba, 0xabb), (0xac6, 0xac6), (0xaca, 0xaca), (0xace, 0xacf),
  (0xad1, 0xadf), (0xae4, 0xae5), (0xaf2, 0xaf8), (0xb00, 0xb00),
  (0xb04, 0xb04), (0xb0d, 0xb0e), (0xb11, 0xb12), (0xb29, 0xb29),
  (0xb31, 0xb31), (0xb34, 0xb34), (0xb3a, 0xb3b), (0xb45, 0xb46),
  (0xb49, 0xb4a), (0xb4e, 0xb54), (0xb58, 0xb5b), (0xb5e, 0xb5e),
  (0xb64, 0xb65), (0xb78, 0xb81), (0xb84, 0xb84), (0xb8b, 0xb8d),
  (0xb91, 0xb91), (0xb96, 0xb98), (0xb9b, 0xb9b), (0xb9d, 0xb9d),
  (0xba0, 0xba2), (0xba5, 0xba7), (0xbab, 0xbad), (0xbba, 0xbbd),
  (0xbc3, 0xbc5), (0xbc9, 0xbc9), (0xbce, 0xbcf), (0xbd1, 0xbd6),
  (0xbd8, 0xbe5), (0xbfb, 0xbff), (0xc0d, 0xc0d), (0xc11, 0xc11),
  (0xc29, 0xc29), (0xc3a, 0xc3b), (0xc45, 0xc45), (0xc49, 0xc49),
  (0xc4e, 0xc54), (0xc57, 0xc57), (0xc5b, 0xc5c), (0xc5e, 0xc5f),
  (0xc64, 0xc65), (0xc70, 0xc76), (0xc8d, 0xc8d), (0xc91, 0xc91),
  (0xca9, 0xca9), (0xcb4, 0xcb4), (0xcba, 0xcbb), (0xcc5, 0xcc5),
  (0xcc9, 0xcc9), (0xcce, 0xcd4), (0xcd7, 0xcdc), (0xcdf, 0xcdf),
  (0xce4, 0xce5), (0xcf0, 0xcf0), (0xcf3, 0xcff), (0xd0d, 0xd0d),
  (0xd11, 0xd11), (0xd45, 0xd45), (0xd49, 0xd49), (0xd50, 0xd53),
  (0xd64, 0xd65), (0xd80, 0xd80), (0xd84, 0xd84), (0xd97, 0xd99),
  (0xdb2, 0xdb2), (0xdbc, 0xdbc), (0xdbe, 0xdbf), (0xdc7, 0xdc9),
  (0xdcb, 0xdce), (0xdd5, 0xdd5), (0xdd7, 0xdd7), (0xde0, 0xde5),
  (0xdf0, 0xdf1), (0xdf5, 0xe00), (0xe3b, 0xe3e), (0xe5c, 0xe80),
  (0xe83, 0xe83), (0xe85, 0xe85), (0xe8b, 0xe8b), (0xea4, 0xea4),
  (0xea6, 0xea6), (0xebe, 0xebf), (0xec5, 0xec5), (0xec7, 0xec7),
  (0xece, 0xecf), (0xeda, 0xedb), (0xee0, 0xeff), (0xf48, 0xf48),
  (0xf6d, 0xf70), (0xf98, 0xf98), (0xfbd, 0xfbd), (0xfcd, 0xfcd),
  (0xfdb, 0xfff), (0x10c6, 0x10c6), (0x10c8, 0x10cc), (0x10ce, 0x10cf),
  (0x1249, 0x1249), (0x124e, 0x124f), (0x1257, 0x1257), (0x1259, 0x1259),
  (0x125e, 0x125f), (0x1289, 0x1289), (0x128e, 0x128f), (0x12b1, 0x12b1),
  (0x12b6, 0x12b7), (0x12bf, 0x12bf), (0x12c1, 0x12c1), (0x12c6, 0x12c7),
  (0x12d7, 0x12d7), (0x1311, 0x1311), (0x1316, 0x1317), (0x135b, 0x135c),
  (0x137d, 0x137f), (0x139a, 0x139f), (0x13f6, 0x13f7), (0x13fe, 0x13ff),
  (0x1680, 0x1680), (0x169d, 0x169f), (0x16f9, 0x16ff), (0x1716, 0x171e),
  (0x1737, 0x173f), (0x1754, 0x175f), (0x176d, 0x176d), (0x1771, 0x1771),
  (0x1774, 0x177f), (0x17de, 0x17df), (0x17ea, 0x17ef), (0x17fa, 0x17ff),
  (0x180e, 0x180e), (0x181a, 0x181f), (0x1879, 0x187f), (0x18ab, 0x18af),
  (0x18f6, 0x18ff), (0x191f, 0x191f), (0x192c, 0x192f), (0x193c, 0x193f),
  (0x1941, 0x1943), (0x196e, 0x196f), (0x1975, 0x197f), (0x19ac, 0x19af),
  (0x19ca, 0x19cf), (0x19db, 0x19dd), (0x1a1c, 0x1a1d), (0x1a5f, 0x1a5f),
  (0x1a7d, 0x1a7e), (0x1a8a, 0x1a8f), (0x1a9a, 0x1a9f), (0x1aae, 0x1aaf),
  (0x1acf, 0x1aff), (0x1b4d, 0x1b4f), (0x1b7f, 0x1b7f), (0x1bf4, 0x1bfb),
  (0x1c38, 0x1c3a), (0x1c4a, 0x1c4c), (0x1c89, 0x1c8f), (0x1cbb, 0x1cbc),
  (0x1cc8, 0x1ccf), (0x1cfb, 0x1cff), (0x1f16, 0x1f17), (0x1f1e, 0x1f1f),
  (0x1f46, 0x1f47), (0x1f4e, 0x1f4f), (0x1f58, 0x1f58), (0x1f5a, 0x1f5a),
  (0x1f5c, 0x1f5c), (0x1f5e, 0x1f5e), (0x1f7e, 0x1f7f), (0x1fb5, 0x1fb5),
  (0x1fc5, 0x1fc5), (0x1fd4, 0x1fd5), (0x1fdc, 0x1fdc), (0x1ff0, 0x1ff1),
  (0x1ff5, 0x1ff5), (0x1fff, 0x200f), (0x2028, 0x202f), (0x205f, 0x206f),
  (0x2072, 0x2073), (0x208f, 0x208f), (0x209d, 0x209f), (0x20c1, 0x20cf),
  (0x20f1, 0x20ff), (0x218c, 0x218f), (0x2427, 0x243f), (0x244b, 0x245f),
  (0x2b74, 0x2b75), (0x2b96, 0x2b96), (0x2cf4, 0x2cf8), (0x2d26, 0x2d26),
  (0x2d28, 0x2d2c), (0x2d2e, 0x2d2f), (0x2d68, 0x2d6e), (0x2d71, 0x2d7e),
  (0x2d97, 0x2d9f), (0x2da7, 0x2da7), (0x2daf, 0x2daf), (0x2db7, 0x2db7),
  (0x2dbf, 0x2dbf), (0x2dc7, 0x2dc7), (0x2dcf, 0x2dcf), (0x2dd7, 0x2dd7),
  (0x2ddf, 0x2ddf), (0x2e5e, 0x2e7f), (0x2e9a, 0x2e9a), (0x2ef4, 0x2eff),
  (0x2fd6, 0x2fef), (0x2ffc, 0x3000), (0x3040, 0x3040), (0x3097, 0x3098),
  (0x3100, 0x3104), (0x3130, 0x3130), (0x318f, 0x318f), (0x31e4, 0x31ef),
  (0x321f, 0x321f), (0xa48d, 0xa48f), (0xa4c7, 0xa4cf), (0xa62c, 0xa63f),
  (0xa6f8, 0xa6ff), (0xa7cb, 0xa7cf), (0xa7d2, 0xa7d2), (0xa7d4, 0xa7d4),
  (0xa7da, 0xa7f1), (0xa82d, 0xa82f), (0xa83a, 0xa83f), (0xa878, 0xa87f),
  (0xa8c6, 0xa8cd), (0xa8da, 0xa8df), (0xa954, 0xa95e), (0xa97d, 0xa97f),
  (0xa9ce, 0xa9ce), (0xa9da, 0xa9dd), (0xa9ff, 0xa9ff), (0xaa37, 0xaa3f),
  (0xaa4e, 0xaa4f), (0xaa5a, 0xaa5b), (0xaac3, 0xaada), (0xaaf7, 0xab00),
  (0xab07, 0xab08), (0xab0f, 0xab10), (0xab17, 0xab1f), (0xab27, 0xab27),
  (0xab2f, 0xab2f), (0xab6c, 0xab6f), (0xabee, 0xabef), (0xabfa, 0xabff),
  (0xd7a4, 0xd7af), (0xd7c7, 0xd7ca), (0xd7fc, 0xf8ff), (0xfa6e, 0xfa6f),
  (0xfada, 0xfaff), (0xfb07, 0xfb12), (0xfb18, 0xfb1c), (0xfb37, 0xfb37),
  (0xfb3d, 0xfb3d), (0xfb3f, 0xfb3f), (0xfb42, 0xfb42), (0xfb45, 0xfb45),
  (0xfbc3, 0xfbd2), (0xfd90, 0xfd91), (0xfdc8, 0xfdce), (0xfdd0, 0xfdef),
  (0xfe1a, 0xfe1f), (0xfe53, 0xfe53), (0xfe67, 0xfe67), (0xfe6c, 0xfe6f),
  (0xfe75, 0xfe75), (0xfefd, 0xff00), (0xffbf, 0xffc1), (0xffc8, 0xffc9),
  (0xffd0, 0xffd1), (0xffd8, 0xffd9), (0xffdd, 0xffdf), (0xffe7, 0xffe7),
  (0xffef, 0xfffb), (0xfffe, 0xffff), (0x1000c, 0x1000c), (0x10027, 0x10027),
  (0x1003b, 0x1003b), (0x1003e, 0x1003e), (0x1004e, 0x1004f), (0x1005e, 0x1007f),
  (0x100fb, 0x100ff), (0x10103, 0x10106), (0x10134, 0x10136), (0x1018f, 0x1018f),
  (0x1019d, 0x1019f), (0x101a1, 0x101cf), (0x101fe, 0x1027f), (0x1029d, 0x1029f),
  (0x102d1, 0x102df), (0x102fc, 0x102ff), (0x10324, 0x1032c), (0x1034b, 0x1034f),
  (0x1037b, 0x1037f), (0x1039e, 0x1039e), (0x103c4, 0x103c7), (0x103d6, 0x103ff),
  (0x1049e, 0x1049f), (0x104aa, 0x104af), (0x104d4, 0x104d7), (0x104fc, 0x104ff),
  (0x10528, 0x1052f), (0x10564, 0x1056e), (0x1057b, 0x1057b), (0x1058b, 0x1058b),
  (0x10593, 0x10593), (0x10596, 0x10596), (0x105a2, 0x105a2), (0x105b2, 0x105b2),
  (0x105ba, 0x105ba), (0x105bd, 0x105ff), (0x10737, 0x1073f), (0x10756, 0x1075f),
  (0x10768, 0x1077f), (0x10786, 0x10786), (0x107b1, 0x107b1), (0x107bb, 0x107ff),
  (0x10806, 0x10807), (0x10809, 0x10809), (0x10836, 0x10836), (0x10839, 0x1083b),
  (0x1083d, 0x1083e), (0x10856, 0x10856), (0x1089f, 0x108a6), (0x108b0, 0x108df),
  (0x108f3, 0x108f3), (0x108f6, 0x108fa), (0x1091c, 0x1091e), (0x1093a, 0x1093e),
  (0x10940, 0x1097f), (0x109b8, 0x109bb), (0x109d0, 0x109d1), (0x10a04, 0x10a04),
  (0x10a07, 0x10a0b), (0x10a14, 0x10a14), (0x10a18, 0x10a18), (0x10a36, 0x10a37),
  (0x10a3b, 0x10a3e), (0x10a49, 0x10a4f), (0x10a59, 0x10a5f), (0x10aa0, 0x10abf),
  (0x10ae7, 0x10aea), (0x10af7, 0x10aff), (0x10b36, 0x10b38), (0x10b56, 0x10b57),
  (0x10b73, 0x10b77), (0x10b92, 0x10b98), (0x10b9d, 0x10ba8), (0x10bb0, 0x10bff),
  (0x10c49, 0x10c7f), (0x10cb3, 0x10cbf), (0x10cf3, 0x10cf9), (0x10d28, 0x10d2f),
  (0x10d3a, 0x10e5f), (0x10e7f, 0x10e7f), (0x10eaa, 0x10eaa), (0x10eae, 0x10eaf),
  (0x10eb2, 0x10eff), (0x10f28, 0x10f2f), (0x10f5a, 0x10f6f), (0x10f8a, 0x10faf),
  (0x10fcc, 0x10fdf), (0x10ff7, 0x10fff), (0x1104e, 0x11051), (0x11076, 0x1107e),
  (0x110bd, 0x110bd), (0x110c3, 0x110cf), (0x110e9, 0x110ef), (0x110fa, 0x110ff),
  (0x11135, 0x11135), (0x11148, 0x1114f), (0x11177, 0x1117f), (0x111e0, 0x111e0),
  (0x111f5, 0x111ff), (0x11212, 0x11212), (0x1123f, 0x1127f), (0x11287, 0x11287),
  (0x11289, 0x11289), (0x1128e, 0x1128e), (0x1129e, 0x1129e), (0x112aa, 0x112af),
  (0x112eb, 0x112ef), (0x112fa, 0x112ff), (0x11304, 0x11304), (0x1130d, 0x1130e),
  (0x11311, 0x11312), (0x11329, 0x11329), (0x11331, 0x11331), (0x11334, 0x11334),
  (0x1133a, 0x1133a), (0x11345, 0x11346), (0x11349, 0x1134a), (0x1134e, 0x1134f),
  (0x11351, 0x11356), (0x11358, 0x1135c), (0x11364, 0x11365), (0x1136d, 0x1136f),
  (0x11375, 0x113ff), (0x1145c, 0x1145c), (0x11462, 0x1147f), (0x114c8, 0x114cf),
  (0x114da, 0x1157f), (0x115b6, 0x115b7), (0x115de, 0x115ff), (0x11645, 0x1164f),
  (0x1165a, 0x1165f), (0x1166d, 0x1167f), (0x116ba, 0x116bf), (0x116ca, 0x116ff),
  (0x1171b, 0x1171c), (0x1172c, 0x1172f), (0x11747, 0x117ff), (0x1183c, 0x1189f),
  (0x118f3, 0x118fe), (0x11907, 0x11908), (0x1190a, 0x1190b), (0x11914, 0x11914),
  (0x11917, 0x11917), (0x11936, 0x11936), (0x11939, 0x1193a), (0x11947, 0x1194f),
  (0x1195a, 0x1199f), (0x119a8, 0x119a9), (0x119d8, 0x119d9), (0x119e5, 0x119ff),
  (0x11a48, 0x11a4f), (0x11aa3, 0x11aaf), (0x11af9, 0x11bff), (0x11c09, 0x11c09),
  (0x11c37, 0x11c37), (0x11c46, 0x11c4f), (0x11c6d, 0x11c6f), (0x11c90, 0x11c91),
  (0x11ca8, 0x11ca8), (0x11cb7, 0x11cff), (0x11d07, 0x11d07), (0x11d0a, 0x11d0a),
  (0x11d37, 0x11d39), (0x11d3b, 0x11d3b), (0x11d3e, 0x11d3e), (0x11d48, 0x11d4f),
  (0x11d5a, 0x11d5f), (0x11d66, 0x11d66), (0x11d69, 0x11d69), (0x11d8f, 0x11d8f),
  (0x11d92, 0x11d92), (0x11d99, 0x11d9f), (0x11daa, 0x11edf), (0x11ef9, 0x11faf),
  (0x11fb1, 0x11fbf), (0x11ff2, 0x11ffe), (0x1239a, 0x123ff), (0x1246f, 0x1246f),
  (0x12475, 0x1247f), (0x12544, 0x12f8f), (0x12ff3, 0x12fff), (0x1342f, 0x143ff),
  (0x14647, 0x167ff), (0x16a39, 0x16a3f), (0x16a5f, 0x16a5f), (0x16a6a, 0x16a6d),
  (0x16abf, 0x16abf), (0x16aca, 0x16acf), (0x16aee, 0x16aef), (0x16af6, 0x16aff),
  (0x16b46, 0x16b4f), (0x16b5a, 0x16b5a), (0x16b62, 0x16b62), (0x16b78, 0x16b7c),
  (0x16b90, 0x16e3f), (0x16e9b, 0x16eff), (0x16f4b, 0x16f4e), (0x16f88, 0x16f8e),
  (0x16fa0, 0x16fdf), (0x16fe5, 0x16fef), (0x16ff2, 0x16fff), (0x187f8, 0x187ff),
  (0x18cd6, 0x18cff), (0x18d09, 0x1afef), (0x1aff4, 0x1aff4), (0x1affc, 0x1affc),
  (0x1afff, 0x1afff), (0x1b123, 0x1b14f), (0x1b153, 0x1b163), (0x1b168, 0x1b16f),
  (0x1b2fc, 0x1bbff), (0x1bc6b, 0x1bc6f), (0x1bc7d, 0x1bc7f), (0x1bc89, 0x1bc8f),
  (0x1bc9a, 0x1bc9b), (0x1bca0, 0x1ceff), (0x1cf2e, 0x1cf2f), (0x1cf47, 0x1cf4f),
  (0x1cfc4, 0x1cfff), (0x1d0f6, 0x1d0ff), (0x1d127, 0x1d128), (0x1d173, 0x1d17a),
  (0x1d1eb, 0x1d1ff), (0x1d246, 0x1d2df), (0x1d2f4, 0x1d2ff), (0x1d357, 0x1d35f),
  (0x1d379, 0x1d3ff), (0x1d455, 0x1d455), (0x1d49d, 0x1d49d), (0x1d4a0, 0x1d4a1),
  (0x1d4a3, 0x1d4a4), (0x1d4a7, 0x1d4a8), (0x1d4ad, 0x1d4ad), (0x1d4ba, 0x1d4ba),
  (0x1d4bc, 0x1d4bc), (0x1d4c4, 0x1d4c4), (0x1d506, 0x1d506), (0x1d50b, 0x1d50c),
  (0x1d515, 0x1d515), (0x1d51d, 0x1d51d), (0x1d53a, 0x1d53a), (0x1d53f, 0x1d53f),
  (0x1d545, 0x1d545), (0x1d547, 0x1d549), (0x1d551, 0x1d551), (0x1d6a6, 0x1d6a7),
  (0x1d7cc, 0x1d7cd), (0x1da8c, 0x1da9a), (0x1daa0, 0x1daa0), (0x1dab0, 0x1deff),
  (0x1df1f, 0x1dfff), (0x1e007, 0x1e007), (0x1e019, 0x1e01a), (0x1e022, 0x1e022),
  (0x1e025, 0x1e025), (0x1e02b, 0x1e0ff), (0x1e12d, 0x1e12f), (0x1e13e, 0x1e13f),
  (0x1e14a, 0x1e14d), (0x1e150, 0x1e28f), (0x1e2af, 0x1e2bf), (0x1e2fa, 0x1e2fe),
  (0x1e300, 0x1e7df), (0x1e7e7, 0x1e7e7), (0x1e7ec, 0x1e7ec), (0x1e7ef, 0x1e7ef),
  (0x1e7ff, 0x1e7ff), (0x1e8c5, 0x1e8c6), (0x1e8d7, 0x1e8ff), (0x1e94c, 0x1e94f),
  (0x1e95a, 0x1e95d), (0x1e960, 0x1ec70), (0x1ecb5, 0x1ed00), (0x1ed3e, 0x1edff),
  (0x1ee04, 0x1ee04), (0x1ee20, 0x1ee20), (0x1ee23, 0x1ee23), (0x1ee25, 0x1ee26),
  (0x1ee28, 0x1ee28), (0x1ee33, 0x1ee33), (0x1ee38, 0x1ee38), (0x1ee3a, 0x1ee3a),
  (0x1ee3c, 0x1ee41), (0x1ee43, 0x1ee46), (0x1ee48, 0x1ee48), (0x1ee4a, 0x1ee4a),
  (0x1ee4c, 0x1ee4c), (0x1ee50, 0x1ee50), (0x1ee53, 0x1ee53), (0x1ee55, 0x1ee56),
  (0x1ee58, 0x1ee58), (0x1ee5a, 0x1ee5a), (0x1ee5c, 0x1ee5c), (0x1ee5e, 0x1ee5e),
  (0x1ee60, 0x1ee60), (0x1ee63, 0x1ee63), (0x1ee65, 0x1ee66), (0x1ee6b, 0x1ee6b),
  (0x1ee73, 0x1ee73), (0x1ee78, 0x1ee78), (0x1ee7d, 0x1ee7d), (0x1ee7f, 0x1ee7f),
  (0x1ee8a, 0x1ee8a), (0x1ee9c, 0x1eea0), (0x1eea4, 0x1eea4), (0x1eeaa, 0x1eeaa),
  (0x1eebc, 0x1eeef), (0x1eef2, 0x1efff), (0x1f02c, 0x1f02f), (0x1f094, 0x1f09f),
  (0x1f0af, 0x1f0b0), (0x1f0c0, 0x1f0c0), (0x1f0d0, 0x1f0d0), (0x1f0f6, 0x1f0ff),
  (0x1f1ae, 0x1f1e5), (0x1f203, 0x1f20f), (0x1f23c, 0x1f23f), (0x1f249, 0x1f24f),
  (0x1f252, 0x1f25f), (0x1f266, 0x1f2ff), (0x1f6d8, 0x1f6dc), (0x1f6ed, 0x1f6ef),
  (0x1f6fd, 0x1f6ff), (0x1f774, 0x1f77f), (0x1f7d9, 0x1f7df), (0x1f7ec, 0x1f7ef),
  (0x1f7f1, 0x1f7ff), (0x1f80c, 0x1f80f), (0x1f848, 0x1f84f), (0x1f85a, 0x1f85f),
  (0x1f888, 0x1f88f), (0x1f8ae, 0x1f8af), (0x1f8b2, 0x1f8ff), (0x1fa54, 0x1fa5f),
  (0x1fa6e, 0x1fa6f), (0x1fa75, 0x1fa77), (0x1fa7d, 0x1fa7f), (0x1fa87, 0x1fa8f),
  (0x1faad, 0x1faaf), (0x1fabb, 0x1fabf), (0x1fac6, 0x1facf), (0x1fada, 0x1fadf),
  (0x1fae8, 0x1faef), (0x1faf7, 0x1faff), (0x1fb93, 0x1fb93), (0x1fbcb, 0x1fbef),
  (0x1fbfa, 0x1ffff), (0x2a6e0, 0x2a6ff), (0x2b739, 0x2b73f), (0x2b81e, 0x2b81f),
  (0x2cea2, 0x2ceaf), (0x2ebe1, 0x2f7ff), (0x2fa1e, 0x2ffff), (0x3134b, 0xe00ff),
  (0xe01f0, 0x10ffff)
]

/-- Python `str.isprintable()` on one character. -/
def pyIsprintable (c : Char) : Bool :=
  !(inRanges pyNonprintableRanges c.toNat)

/-- The backslash character. -/
def backslashChar : Char := Char.ofNat 92

/-- The single-quote character. -/
def squoteChar : Char := Char.ofNat 39

/-- The double-quote character. -/
def dquoteChar : Char := Char.ofNat 34

/-- Lowercase hexadecimal digit for a value below 16. -/
def hexDigitChar (n : Nat) : Char :=
  if n < 10 then Char.ofNat (48 + n) else Char.ofNat (87 + n)

/-- `n` rendered as exactly `w` lowercase hexadecimal digits. -/
def hexPad (w n : Nat) : String :=
  String.mk ((List.range w).reverse.map (fun i => hexDigitChar (n / 16 ^ i % 16)))

/-- One character of Python `repr` output for a string delimited by
`quote`, following CPython `unicode_repr`: escape the quote character
and the backslash; render tab, newline and carriage return as their
two-character escapes; map the remaining non-printable US-ASCII
characters to two-digit hexadecimal escapes; copy other ASCII and
printable non-ASCII characters verbatim; render non-printable
non-ASCII characters as hexadecimal escapes of 2, 4 or 8 digits by
code-point size. -/
def pyReprChar (quote c : Char) : String :=
  if c == quote || c == backslashChar then
    String.mk [backslashChar, c]
  else if c == Char.ofNat 9 then String.mk [backslashChar, Char.ofNat 116]
  else if c == Char.ofNat 10 then String.mk [backslashChar, Char.ofNat 110]
  else if c == Char.ofNat 13 then String.mk [backslashChar, Char.ofNat 114]
  else if c.toNat < 0x20 || c.toNat == 0x7f then
    String.mk [backslashChar, Char.ofNat 120] ++ hexPad 2 c.toNat
  else if c.toNat < 0x7f then String.singleton c
  else if pyIsprintable c then String.singleton c
  else if c.toNat ≤ 0xff then
    String.mk [backslashChar, Char.ofNat 120] ++ hexPad 2 c.toNat
  else if c.toNat ≤ 0xffff then
    String.mk [backslashChar, Char.ofNat 117] ++ hexPad 4 c.toNat
  else
    String.mk [backslashChar, Char.ofNat 85] ++ hexPad 8 c.toNat

/-- Python `repr` of a string: single-quoted, unless the string
contains a single quote and no double quote, in which case
double-quoted; each character rendered by `pyReprChar`. -/
def pyStrRepr (s : String) : String :=
  let quote := if s.data.contains squoteChar && !(s.data.contains dquoteChar)
    then dquoteChar else squoteChar
  String.singleton quote
    ++ String.join (s.data.map (pyReprChar quote))
    ++ String.singleton quote

/-- Python f-string rendering of a list of strings (the `repr` of the
list: bracketed, comma-separated element `repr`s), as interpolated into
the `"DNIs inválidos: ..."` detail message. -/
def pyStrListRepr (l : List String) : String :=
  "[" ++ String.intercalate ", " (l.map pyStrRepr) ++ "]"

/-- The handler `consultar_dni` of `main.py` (the body of the route
`GET /dni/{dni}`, after the API-key dependency):
validate the key, check `SEEKER_TOKEN`, then perform one upstream call,
mapping `HTTPStatusError` to a pass-through status, `RequestError` to
503, and leaving a JSON decode error uncaught. -/
def consultar_dni (cfg : Config) (up : Upstream) (dni : String) :
    Traced SingleResult :=
  if !(validDni dni) then
    ⟨.httpError 400 "DNI debe tener exactamente 8 dígitos", []⟩
  else if cfg.SEEKER_TOKEN == "" then
    ⟨.httpError 500 "SEEKER_TOKEN no configurado en Railway", []⟩
  else
    match attemptFetch up cfg.SEEKER_TOKEN dni with
    | .ok payload => ⟨.ok payload, [mkRequest cfg.SEEKER_TOKEN dni]⟩
    | .error (.httpStatusError st text) =>
        ⟨.httpError st ("Error de seeker.red: " ++ text),
         [mkRequest cfg.SEEKER_TOKEN dni]⟩
    | .error (.requestError detail) =>
        ⟨.httpError 503 ("Error de conexión: " ++ detail),
         [mkRequest cfg.SEEKER_TOKEN dni]⟩
    | .error (e@(.jsonDecodeError _)) =>
        ⟨.uncaught (pyExcStr e), [mkRequest cfg.SEEKER_TOKEN dni]⟩

/-- One item of the batch response: the dict
`{"dni": ..., "status": "ok"|"error", "data"|"detalle": ...}`. -/
structure ItemResult where
  dni : String
  status : String
  data : Option String
  detalle : Option String
deriving Repr, DecidableEq

/-- The inner worker `consultar_uno` of `consultar_lote`: performs the
upstream call and wraps it in `try ... except Exception`, so every
exception becomes a per-item error dict. Note: it performs no
`SEEKER_TOKEN` check; the request is issued with whatever token is
configured, possibly empty. -/
def consultar_uno (cfg : Config) (up : Upstream) (dni : String) : ItemResult :=
  match attemptFetch up cfg.SEEKER_TOKEN dni with
  | .ok payload => ⟨dni, "ok", some payload, none⟩
  | .error e => ⟨dni, "error", none, some (pyExcStr e)⟩

/-- `consultar_uno` with its upstream-request trace: the `client.post`
is unconditionally attempted (one request per item). -/
def consultar_uno_traced (cfg : Config) (up : Upstream) (dni : String) :
    Traced ItemResult :=
  ⟨consultar_uno cfg up dni, [mkRequest cfg.SEEKER_TOKEN dni]⟩

/-- The JSON body returned by the batch endpoint:
`{"total": ..., "resultados": [...]}`. -/
structure BatchResponse where
  total : Nat
  resultados : List ItemResult
deriving Repr, DecidableEq

/-- HTTP-level outcome of the batch handler. -/
inductive LoteResult where
  | ok (resp : BatchResponse)
  | httpError (status : Nat) (detail : String)
deriving Repr, DecidableEq

/-- The pure value of the batch dispatch: one `consultar_uno` outcome
per key, in input order (`asyncio.gather` over the comprehension-built
task list returns results in task-creation order). -/
def pureOutcomes (cfg : Config) (up : Upstream) (dnis : List String) :
    List ItemResult :=
  dnis.map (consultar_uno cfg up)

/-- The handler `consultar_lote` of `main.py` (the body of the route
`POST /dni/lote`, after the API-key dependency): reject batches of more
than 20 keys, then reject if any key is invalid (listing the offenders),
otherwise dispatch every key through `consultar_uno` and assemble
`{"total": len(resultados), "resultados": resultados}`. -/
def consultar_lote (cfg : Config) (up : Upstream) (dnis : List String) :
    Traced LoteResult :=
  if dnis.length > 20 then
    ⟨.httpError 400 "Máximo 20 DNIs por lote", []⟩
  else
    let invalidos := dnis.filter (fun d => !(validDni d))
    if !invalidos.isEmpty then
      ⟨.httpError 400 ("DNIs inválidos: " ++ pyStrListRepr invalidos), []⟩
    else
      let resultados := pureOutcomes cfg up dnis
      ⟨.ok ⟨resultados.length, resultados⟩,
       dnis.map (mkRequest cfg.SEEKER_TOKEN)⟩

/-!
## Scheduler model for the bounded fan-out

`consultar_lote` creates one coroutine per key, gates each with
`asyncio.Semaphore(5)`, and joins them with `asyncio.gather`. The
transition system below models an arbitrary cooperative interleaving of
those coroutines: a `pending` task may acquire a slot whenever one is
free; a `running` task may finish, releasing its slot and recording its
outcome at its own index. Outcomes are the pure per-item values
(`consultar_uno` is deterministic given the oracle), so the model
quantifies over every completion order.
-/

/-- Capacity of the semaphore created by `asyncio.Semaphore(5)`. -/
def semCapacity : Nat := 5

/-- Phase of one batch coroutine: not yet past the semaphore, holding a
slot with its upstream call in flight, or finished. -/
inductive TaskPhase where
  | pending
  | running
  | done
deriving Repr, DecidableEq

/-- State of one batch dispatch: free semaphore slots, per-task phases,
and per-index recorded outcomes. -/
structure DState where
  sem : Nat
  phases : List TaskPhase
  results : List (Option ItemResult)
deriving Repr, DecidableEq

/-- Initial dispatch state for `n` tasks: all slots free, every task
pending, no outcome recorded. -/
def initState (n : Nat) : DState :=
  ⟨semCapacity, List.replicate n .pending, List.replicate n none⟩

/-- Number of tasks whose upstream call is currently executing. -/
def countRunning (phases : List TaskPhase) : Nat :=
  phases.countP (fun p => p == TaskPhase.running)

/-- One scheduler step of the dispatch, parameterised by the list of
pure per-item outcomes `out`: task `i` may pass the semaphore when a
slot is free, or finish its call, releasing the slot and recording
`out[i]` at index `i`. -/
inductive DStep (out : List ItemResult) : DState → DState → Prop where
  | acquire (s : DState) (i : Nat)
      (hp : s.phases[i]? = some .pending) (hs : 0 < s.sem) :
      DStep out s ⟨s.sem - 1, s.phases.set i .running, s.results⟩
  | finish (s : DState) (i : Nat)
      (hp : s.phases[i]? = some .running) :
      DStep out s
        ⟨s.sem + 1, s.phases.set i .done, s.results.set i out[i]?⟩

/-- Reachability of a dispatch state from the initial state of a batch
with outcomes `out`. -/
def DReaches (out : List ItemResult) (s : DState) : Prop :=
  Relation.ReflTransGen (DStep out) (initState out.length) s

/-- Invariant of the dispatch: phase and result lists keep the batch
length, free slots plus running tasks equal the semaphore capacity, and
a finished task has its pure outcome recorded at its index. -/
def DInv (out : List ItemResult) (s : DState) : Prop :=
  s.phases.length = out.length ∧
  s.results.length = out.length ∧
  s.sem + countRunning s.phases = semCapacity ∧
  ∀ i : Nat, s.phases[i]? = some TaskPhase.done → s.results[i]? = some out[i]?

theorem countP_set_of_getElem? {α : Type} (p : α → Bool) (l : List α)
    (i : Nat) (u v : α) (h : l[i]? = some u) :
    (l.set i v).countP p + (if p u then 1 else 0) =
      l.countP p + (if p v then 1 else 0) := by
  induction l generalizing i with
  | nil => simp at h
  | cons a t ih =>
    cases i with
    | zero =>
      simp at h
      subst h
      simp [List.countP_cons]
      omega
    | succ j =>
      simp at h
      have := ih j h
      simp [List.set, List.countP_cons]
      omega

theorem dinv_init (out : List ItemResult) : DInv out (initState out.length) := by
  refine ⟨by simp [initState], by simp [initState], ?_, ?_⟩
  · simp [initState, countRunning]
  · intro i hi
    simp [initState, List.getElem?_replicate] at hi

theorem dinv_step (out : List ItemResult) (s t : DState)
    (hinv : DInv out s) (hstep : DStep out s t) : DInv out t := by
  obtain ⟨hlp, hlr, hsem, hres⟩ := hinv
  cases hstep with
  | acquire i hp hs =>
    have hilen : i < s.phases.length := by
      by_contra hge
      rw [List.getElem?_eq_none (Nat.le_of_not_lt hge)] at hp
      cases hp
    have hcount := countP_set_of_getElem? (fun p => p == TaskPhase.running)
      s.phases i .pending .running hp
    refine ⟨by simpa using hlp, hlr, ?_, ?_⟩
    · simp only [countRunning] at hsem ⊢
      simp at hcount
      omega
    · intro j hj
      by_cases hji : j = i
      · subst hji
        rw [List.getElem?_set_self hilen] at hj
        cases hj
      · rw [List.getElem?_set_ne (fun h => hji h.symm)] at hj
        exact hres j hj
  | finish i hp =>
    have hilen : i < s.phases.length := by
      by_contra hge
      rw [List.getElem?_eq_none (Nat.le_of_not_lt hge)] at hp
      cases hp
    have hcount := countP_set_of_getElem? (fun p => p == TaskPhase.running)
      s.phases i .running .done hp
    refine ⟨by simpa using hlp, by simpa using hlr, ?_, ?_⟩
    · simp only [countRunning] at hsem ⊢
      simp at hcount
      omega
    · intro j hj
      by_cases hji : j = i
      · subst hji
        have hjlen : j < s.results.length := by omega
        exact List.getElem?_set_self hjlen
      · rw [List.getElem?_set_ne (fun h => hji h.symm)] at hj
        rw [List.getElem?_set_ne (fun h => hji h.symm)]
        exact hres j hj

theorem dinv_reaches (out : List ItemResult) (s : DState)
    (h : DReaches out s) : DInv out s := by
  induction h with
  | refl => exact dinv_init out
  | tail _ hstep ih => exact dinv_step out _ _ ih hstep

/-!
## Fixtures

Concrete configurations and oracles used by witnesses and
counterexamples.
-/

/-- A configuration with a bearer token configured and the inbound
API-key gate disabled. -/
def cfg0 : Config := ⟨"tok", ""⟩

/-- A configuration in which `SEEKER_TOKEN` is absent (its default,
the empty string). -/
def cfgNoToken : Config := ⟨"", ""⟩

/-- An upstream that always answers 2xx with payload `p`. -/
def upOk : Upstream := fun _ => .ok "p"

/-- An upstream that fails at the transport level for key `87654321`
and answers 2xx otherwise. -/
def upFail2 : Upstream := fun r =>
  if r.dni == "87654321" then .transportError "boom" else .ok "p"

/-!
## Claims
-/

/-- C4, counterexample: the validator accepts the key `٢٢٢٢٢٢٢٢` —
eight Arabic-Indic digit characters, each a digit for Python
`str.isdigit()` — although the string is not composed of ASCII decimal
digits, refuting the claimed acceptance iff exactly 8 ASCII decimal
digits. -/
theorem C4_counterexample_unicode_digits :
    validDni "٢٢٢٢٢٢٢٢" = true
    ∧ ("٢٢٢٢٢٢٢٢" : String).data.all Char.isDigit = false
    ∧ ("٢٢٢٢٢٢٢٢" : String).length = 8 := by decide

/-- C4 amended: the validator accepts a candidate key iff its length is
8 and every character is a digit for Python `str.isdigit()` — a strict
superset of the ASCII decimal digits. It still rejects `1234567`,
`123456789` and `1234567a` and accepts `12345678`, but it also accepts
non-ASCII digit keys such as `٢٢٢٢٢٢٢٢`. -/
theorem C4_validator_8_python_digits :
    (∀ s : String, validDni s = true ↔
      (s.length = 8 ∧ ∀ c ∈ s.data, pyIsdigitChar c = true))
    ∧ (∀ c : Char, c.isDigit = true → pyIsdigitChar c = true)
    ∧ validDni "1234567" = false
    ∧ validDni "123456789" = false
    ∧ validDni "1234567a" = false
    ∧ validDni "12345678" = true
    ∧ validDni "٢٢٢٢٢٢٢٢" = true := by
  refine ⟨?_, ?_, by decide, by decide, by decide, by decide, by decide⟩
  · intro s
    obtain ⟨l⟩ := s
    simp [validDni, pyIsdigit, String.length]
    constructor
    · rintro ⟨⟨hne, hall⟩, hlen⟩
      exact ⟨hlen, hall⟩
    · rintro ⟨hlen, hall⟩
      refine ⟨⟨?_, hall⟩, hlen⟩
      intro hemp
      rw [hemp] at hlen
      simp at hlen
  · intro c h
    simp [Char.isDigit] at h
    obtain ⟨h1, h2⟩ := h
    rw [UInt32.le_def, BitVec.le_def] at h1 h2
    unfold pyIsdigitChar inRanges
    rw [List.any_eq_true]
    refine ⟨(0x30, 0x39), by decide, ?_⟩
    simp only [decide_eq_true_eq, Bool.and_eq_true]
    exact ⟨by simpa using h1, by simpa using h2⟩

/-- C9: a batch call with an empty key list returns the empty batch
response (`total = 0`, empty `resultados`) and performs zero upstream
calls. -/
theorem C9_empty_batch (cfg : Config) (up : Upstream) :
    consultar_lote cfg up [] = ⟨.ok ⟨0, []⟩, []⟩ := rfl

/-- C7: every batch call with more than 20 keys is rejected with
HTTP 400 and no upstream dispatch occurs, regardless of whether the
individual keys are valid. -/
theorem C7_size_cap (cfg : Config) (up : Upstream) (dnis : List String)
    (hlen : dnis.length > 20) :
    consultar_lote cfg up dnis =
      ⟨.httpError 400 "Máximo 20 DNIs por lote", []⟩ := by
  simp [consultar_lote, hlen]

/-- Witness for C7: a batch of 21 valid keys is rejected with the
size-cap error and an empty call trace. -/
theorem C7_size_cap_witness :
    consultar_lote cfg0 upOk (List.replicate 21 "12345678") =
      ⟨.httpError 400 "Máximo 20 DNIs por lote", []⟩ :=
  C7_size_cap cfg0 upOk (List.replicate 21 "12345678") (by decide)

/-- The size-cap detail string is never an invalid-key enumeration
message. -/
theorem maximo_ne_invalidos (detail : String) :
    ("Máximo 20 DNIs por lote" : String) ≠ "DNIs inválidos: " ++ detail := by
  intro h
  have hd := congrArg String.data h
  rw [String.data_append] at hd
  have hM : ("Máximo 20 DNIs por lote" : String).data
      = 'M' :: ("áximo 20 DNIs por lote" : String).data := rfl
  have hD : ("DNIs inválidos: " : String).data
      = 'D' :: ("NIs inválidos: " : String).data := rfl
  rw [hM, hD, List.cons_append] at hd
  injection hd with h1 h2
  exact absurd h1 (by decide)

/-- C10: the size-cap check runs before per-key validation: a batch of
more than 20 keys that also contains invalid keys is rejected with the
size-cap error, not with an invalid-key enumeration. -/
theorem C10_cap_checked_before_validation (cfg : Config) (up : Upstream)
    (dnis : List String) (hlen : dnis.length > 20)
    (hbad : ∃ d ∈ dnis, validDni d = false) :
    consultar_lote cfg up dnis =
      ⟨.httpError 400 "Máximo 20 DNIs por lote", []⟩
    ∧ ∀ detail : String, consultar_lote cfg up dnis ≠
        ⟨.httpError 400 ("DNIs inválidos: " ++ detail), []⟩ := by
  have h1 : consultar_lote cfg up dnis =
      ⟨.httpError 400 "Máximo 20 DNIs por lote", []⟩ := by
    simp [consultar_lote, hlen]
  refine ⟨h1, ?_⟩
  intro detail hcontra
  rw [h1] at hcontra
  simp only [Traced.mk.injEq, LoteResult.httpError.injEq] at hcontra
  exact maximo_ne_invalidos detail hcontra.1.2

/-- Witness for C10: 20 valid keys plus one invalid key still get the
size-cap rejection. -/
theorem C10_cap_checked_before_validation_witness :
    consultar_lote cfg0 upOk (List.replicate 20 "12345678" ++ ["abc"]) =
      ⟨.httpError 400 "Máximo 20 DNIs por lote", []⟩
    ∧ ∀ detail : String,
        consultar_lote cfg0 upOk (List.replicate 20 "12345678" ++ ["abc"]) ≠
          ⟨.httpError 400 ("DNIs inválidos: " ++ detail), []⟩ :=
  C10_cap_checked_before_validation cfg0 upOk
    (List.replicate 20 "12345678" ++ ["abc"]) (by decide)
    ⟨"abc", by decide⟩

/-- C5: a batch within the size cap containing at least one invalid key
is rejected with HTTP 400 whose detail enumerates exactly the offending
keys (every invalid key, in input order), and no upstream call is
made. -/
theorem C5_invalid_batch_rejected (cfg : Config) (up : Upstream)
    (dnis : List String) (hlen : ¬ dnis.length > 20)
    (hbad : dnis.filter (fun d => !(validDni d)) ≠ []) :
    consultar_lote cfg up dnis =
      ⟨.httpError 400 ("DNIs inválidos: " ++
        pyStrListRepr (dnis.filter (fun d => !(validDni d)))), []⟩ := by
  have hne : (dnis.filter (fun d => !(validDni d))).isEmpty = false := by
    simpa [List.isEmpty_iff] using hbad
  simp [consultar_lote, hlen, hne]

/-- Witness for C5: a batch holding one malformed key (which contains
a single quote, so its Python `repr` switches to double quotes) is
rejected with the enumeration of that key and an empty call trace. -/
theorem C5_invalid_batch_rejected_witness :
    consultar_lote cfg0 upOk ["12345678", "a\x27b"] =
      ⟨.httpError 400 ("DNIs inválidos: " ++
        pyStrListRepr (["12345678", "a\x27b"].filter
          (fun d => !(validDni d)))), []⟩ :=
  C5_invalid_batch_rejected cfg0 upOk ["12345678", "a\x27b"]
    (by decide) (by decide)

/-- C8: a single lookup with a well-formed key, made while no upstream
credential is configured, fails with the 500 configuration error and an
empty call trace: no network call is attempted. -/
theorem C8_single_lookup_missing_token (apiKey : String) (up : Upstream)
    (dni : String) (hval : validDni dni = true) :
    consultar_dni ⟨"", apiKey⟩ up dni =
      ⟨.httpError 500 "SEEKER_TOKEN no configurado en Railway", []⟩ := by
  simp [consultar_dni, hval]

/-- Witness for C8 at the key `12345678` and an always-succeeding
upstream. -/
theorem C8_single_lookup_missing_token_witness :
    consultar_dni ⟨"", ""⟩ upOk "12345678" =
      ⟨.httpError 500 "SEEKER_TOKEN no configurado en Railway", []⟩ :=
  C8_single_lookup_missing_token "" upOk "12345678" (by decide)

/-- The per-item worker always tags its outcome with its own key. -/
theorem consultar_uno_dni (cfg : Config) (up : Upstream) (dni : String) :
    (consultar_uno cfg up dni).dni = dni := by
  unfold consultar_uno
  cases attemptFetch up cfg.SEEKER_TOKEN dni <;> rfl

/-- The per-item worker always reports a definite status. -/
theorem consultar_uno_status (cfg : Config) (up : Upstream) (dni : String) :
    (consultar_uno cfg up dni).status = "ok" ∨
      (consultar_uno cfg up dni).status = "error" := by
  unfold consultar_uno
  cases attemptFetch up cfg.SEEKER_TOKEN dni
  · right; rfl
  · left; rfl

/-- An accepted batch (within the cap, all keys valid) dispatches every
key and returns the pure outcomes in input order. -/
theorem consultar_lote_accepted (cfg : Config) (up : Upstream)
    (dnis : List String) (hlen : ¬ dnis.length > 20)
    (hval : ∀ d ∈ dnis, validDni d = true) :
    consultar_lote cfg up dnis =
      ⟨.ok ⟨dnis.length, pureOutcomes cfg up dnis⟩,
       dnis.map (mkRequest cfg.SEEKER_TOKEN)⟩ := by
  have hnil : dnis.filter (fun d => !(validDni d)) = [] := by
    rw [List.filter_eq_nil_iff]
    intro d hd
    simp [hval d hd]
  simp [consultar_lote, hlen, hnil, pureOutcomes]

/-- C2: an accepted batch call always returns a batch response — no
item's upstream exception aborts it — in which every item is the pure
per-key outcome recorded at its own index, carries a definite status of
ok or error, and any exception raised by an item's upstream call is
recorded as that item's error outcome. -/
theorem C2_per_item_errors_isolated (cfg : Config) (up : Upstream)
    (dnis : List String) (hlen : ¬ dnis.length > 20)
    (hval : ∀ d ∈ dnis, validDni d = true) :
    (consultar_lote cfg up dnis).result =
      .ok ⟨dnis.length, pureOutcomes cfg up dnis⟩
    ∧ ∀ (i : Nat) (h : i < dnis.length),
        (pureOutcomes cfg up dnis)[i]? =
          some (consultar_uno cfg up dnis[i])
        ∧ (consultar_uno cfg up dnis[i]).dni = dnis[i]
        ∧ ((consultar_uno cfg up dnis[i]).status = "ok" ∨
           (consultar_uno cfg up dnis[i]).status = "error")
        ∧ ∀ e : PyExc,
            attemptFetch up cfg.SEEKER_TOKEN dnis[i] = .error e →
              consultar_uno cfg up dnis[i] =
                ⟨dnis[i], "error", none, some (pyExcStr e)⟩ := by
  refine ⟨by rw [consultar_lote_accepted cfg up dnis hlen hval], ?_⟩
  intro i h
  refine ⟨?_, consultar_uno_dni cfg up dnis[i],
    consultar_uno_status cfg up dnis[i], ?_⟩
  · simp [pureOutcomes, List.getElem?_map, List.getElem?_eq_getElem h]
  · intro e he
    unfold consultar_uno
    rw [he]

/-- Witness for C2: a two-key batch where the upstream fails in
transport for the second key only; the failure is recorded at index 1
and the call still returns both outcomes. -/
theorem C2_per_item_errors_isolated_witness :
    (consultar_lote cfg0 upFail2 ["12345678", "87654321"]).result =
      .ok ⟨(["12345678", "87654321"] : List String).length,
        pureOutcomes cfg0 upFail2 ["12345678", "87654321"]⟩
    ∧ ∀ (i : Nat) (h : i < (["12345678", "87654321"] : List String).length),
        (pureOutcomes cfg0 upFail2 ["12345678", "87654321"])[i]? =
          some (consultar_uno cfg0 upFail2 (["12345678", "87654321"] : List String)[i])
        ∧ (consultar_uno cfg0 upFail2 (["12345678", "87654321"] : List String)[i]).dni =
            (["12345678", "87654321"] : List String)[i]
        ∧ ((consultar_uno cfg0 upFail2 (["12345678", "87654321"] : List String)[i]).status = "ok" ∨
           (consultar_uno cfg0 upFail2 (["12345678", "87654321"] : List String)[i]).status = "error")
        ∧ ∀ e : PyExc,
            attemptFetch upFail2 cfg0.SEEKER_TOKEN (["12345678", "87654321"] : List String)[i] = .error e →
              consultar_uno cfg0 upFail2 (["12345678", "87654321"] : List String)[i] =
                ⟨(["12345678", "87654321"] : List String)[i], "error", none, some (pyExcStr e)⟩ :=
  C2_per_item_errors_isolated cfg0 upFail2 ["12345678", "87654321"]
    (by decide) (by decide)

/-- Counterexample to C6: a batch item's upstream fetch made with no
credential configured still issues the network request (bearer header
built from the empty token) and its outcome here is `ok` — not a
configuration error, and not produced by any credential check. -/
theorem C6_counterexample_batch_no_credential_check :
    consultar_uno_traced cfgNoToken upOk "12345678" =
      ⟨⟨"12345678", "ok", some "p", none⟩,
       [⟨API_URL, "Bearer ", "12345678", TIMEOUT⟩]⟩ := by
  decide

/-- C6 amended: the credential-absence check exists only on the
single-lookup path, where it yields the 500 configuration error before
any network call; a batch item's fetch performs no credential check —
it always issues exactly one upstream request, whose bearer header is
built from the (possibly empty) configured token, and reports the
upstream outcome as ok or a generic per-item error. -/
theorem C6_credential_check_single_path_only (cfg : Config)
    (up : Upstream) (apiKey dni : String) (hval : validDni dni = true) :
    consultar_dni ⟨"", apiKey⟩ up dni =
      ⟨.httpError 500 "SEEKER_TOKEN no configurado en Railway", []⟩
    ∧ (consultar_uno_traced cfg up dni).calls =
        [⟨API_URL, "Bearer " ++ cfg.SEEKER_TOKEN, dni, TIMEOUT⟩]
    ∧ ((consultar_uno_traced cfg up dni).result.status = "ok" ∨
       (consultar_uno_traced cfg up dni).result.status = "error") := by
  refine ⟨by simp [consultar_dni, hval], rfl, ?_⟩
  exact consultar_uno_status cfg up dni

/-- Witness for the amended C6 at the key `12345678`, an
always-succeeding upstream, and a configuration with no token. -/
theorem C6_credential_check_single_path_only_witness :
    consultar_dni ⟨"", ""⟩ upOk "12345678" =
      ⟨.httpError 500 "SEEKER_TOKEN no configurado en Railway", []⟩
    ∧ (consultar_uno_traced cfgNoToken upOk "12345678").calls =
        [⟨API_URL, "Bearer " ++ cfgNoToken.SEEKER_TOKEN, "12345678", TIMEOUT⟩]
    ∧ ((consultar_uno_traced cfgNoToken upOk "12345678").result.status = "ok" ∨
       (consultar_uno_traced cfgNoToken upOk "12345678").result.status = "error") :=
  C6_credential_check_single_path_only cfgNoToken upOk "" "12345678"
    (by decide)

/-- C3: during a batch dispatch, every reachable scheduler state has at
most `semCapacity` upstream calls executing concurrently, and the
capacity configured by `asyncio.Semaphore(5)` is at least 1. -/
theorem C3_concurrency_bounded (cfg : Config) (up : Upstream)
    (dnis : List String) (s : DState)
    (h : DReaches (pureOutcomes cfg up dnis) s) :
    countRunning s.phases ≤ semCapacity ∧ 1 ≤ semCapacity := by
  obtain ⟨-, -, hsem, -⟩ := dinv_reaches (pureOutcomes cfg up dnis) s h
  exact ⟨by omega, by decide⟩

/-- Witness for C3: the state after one task of a one-key batch passes
the semaphore. -/
theorem C3_concurrency_bounded_witness :
    countRunning
        (⟨4, [TaskPhase.running], [none]⟩ : DState).phases ≤ semCapacity
    ∧ 1 ≤ semCapacity :=
  C3_concurrency_bounded cfg0 upOk ["12345678"]
    ⟨4, [TaskPhase.running], [none]⟩
    (Relation.ReflTransGen.single (DStep.acquire _ 0 rfl (by decide)))

/-- C1: for an accepted batch, every completed dispatch run — any
interleaving of the semaphore-gated tasks, regardless of completion
order — records exactly one outcome per input key: the result list has
the input's length, and the outcome at index `i` is the pure outcome of
key `i` and is tagged with that key; the batch response assembles
exactly these outcomes in input order. -/
theorem C1_batch_order_invariant (cfg : Config) (up : Upstream)
    (dnis : List String) (s : DState)
    (hlen : ¬ dnis.length > 20) (hval : ∀ d ∈ dnis, validDni d = true)
    (hreach : DReaches (pureOutcomes cfg up dnis) s)
    (hdone : ∀ i : Nat, i < dnis.length →
      s.phases[i]? = some TaskPhase.done) :
    s.results = (pureOutcomes cfg up dnis).map some
    ∧ s.results.length = dnis.length
    ∧ (∀ (i : Nat) (h : i < dnis.length),
        s.results[i]? = some (some (consultar_uno cfg up dnis[i]))
        ∧ (consultar_uno cfg up dnis[i]).dni = dnis[i])
    ∧ (consultar_lote cfg up dnis).result =
        .ok ⟨dnis.length, pureOutcomes cfg up dnis⟩ := by
  obtain ⟨hlp, hlr, -, hres⟩ :=
    dinv_reaches (pureOutcomes cfg up dnis) s hreach
  have hlenout : (pureOutcomes cfg up dnis).length = dnis.length := by
    simp [pureOutcomes]
  have hitem : ∀ (i : Nat) (h : i < dnis.length),
      s.results[i]? = some (some (consultar_uno cfg up dnis[i])) := by
    intro i h
    have h2 : i < (pureOutcomes cfg up dnis).length := by omega
    rw [hres i (hdone i h), List.getElem?_eq_getElem h2]
    simp [pureOutcomes]
  refine ⟨?_, by omega, fun i h => ⟨hitem i h, consultar_uno_dni cfg up dnis[i]⟩, ?_⟩
  · apply List.ext_getElem?
    intro n
    by_cases hn : n < dnis.length
    · have h2 : n < (pureOutcomes cfg up dnis).length := by omega
      rw [hitem n hn, List.getElem?_map, List.getElem?_eq_getElem h2]
      simp [pureOutcomes]
    · rw [List.getElem?_eq_none (by omega : s.results.length ≤ n),
          List.getElem?_eq_none]
      simp only [List.length_map]
      omega
  · rw [consultar_lote_accepted cfg up dnis hlen hval]

/-- Witness for C1: the final state of a complete run of a one-key
batch (acquire, then finish) carries the single tagged outcome. -/
theorem C1_batch_order_invariant_witness :
    (⟨5, [TaskPhase.done],
        [some (⟨"12345678", "ok", some "p", none⟩ : ItemResult)]⟩ :
      DState).results = (pureOutcomes cfg0 upOk ["12345678"]).map some
    ∧ (⟨5, [TaskPhase.done],
        [some (⟨"12345678", "ok", some "p", none⟩ : ItemResult)]⟩ :
      DState).results.length = (["12345678"] : List String).length
    ∧ (∀ (i : Nat) (h : i < (["12345678"] : List String).length),
        (⟨5, [TaskPhase.done],
            [some (⟨"12345678", "ok", some "p", none⟩ : ItemResult)]⟩ :
          DState).results[i]? =
            some (some (consultar_uno cfg0 upOk
              (["12345678"] : List String)[i]))
        ∧ (consultar_uno cfg0 upOk (["12345678"] : List String)[i]).dni =
            (["12345678"] : List String)[i])
    ∧ (consultar_lote cfg0 upOk ["12345678"]).result =
        .ok ⟨(["12345678"] : List String).length,
          pureOutcomes cfg0 upOk ["12345678"]⟩ :=
  C1_batch_order_invariant cfg0 upOk ["12345678"]
    ⟨5, [TaskPhase.done],
      [some (⟨"12345678", "ok", some "p", none⟩ : ItemResult)]⟩
    (by decide) (by decide)
    (Relation.ReflTransGen.tail
      (Relation.ReflTransGen.single (DStep.acquire _ 0 rfl (by decide)))
      (DStep.finish _ 0 rfl))
    (by
      intro i hi
      have hl1 : (["12345678"] : List String).length = 1 := rfl
      have h0 : i = 0 := by omega
      subst h0
      rfl)
